import Mathlib

/-!
Verification development for `src/prerequisites.py`.

The Python module defines `apply_prerequisites(res, df)`, which evaluates a
hard-coded catalog of subject-eligibility rules over a records table `res`
(columns `StuID`, `Y`, `CG`, plus optional subject-score columns) and writes
one integer 0/1 flag column per subject into the roster table `df` (keyed by
its `Student ID` column).

Embedding choices, mirroring the source:
* A records table (`RecTable`) carries presence booleans for the three
  required columns, the list of optional column names actually present, and
  the rows.  Each row stores `StuID`, `Y`, `CG` and a total valuation of the
  optional fields; a field's value is only ever observed when its column is
  listed as present, exactly as pandas only yields values for existing
  columns.
* `sget` is the source's safe getter: a present column yields the row's
  string cell; an absent column yields the boolean default `False`
  (the source always calls `sget` with its default `default=False`).
  `Val` reproduces pandas' comparison semantics on such mixed cells:
  `False.isin([grades])` is false, `False == 'x'` is false, and therefore
  `False != 'x'` is TRUE, exactly as in pandas.
* Rule predicates are represented by the first-order type `Pred`, whose
  constructors correspond one-to-one to the boolean-series combinators used
  in the source (`res['Y'] == n`, `res['CG'].isin([...])`,
  `sget(c).isin([...])`, `sget(c) == t`, `sget(c) != t`, the
  presence-guarded `res[c] != t` used for the U34 English mask, `&`, `|`).
* The roster is a column-oriented `DF` (ordered list of named columns);
  pandas column assignment `df[col] = v` is update-in-place when the name
  exists and append otherwise (`setCol`).
* `set_flag` is translated literally from lines 25-28 of the source:
  collect the distinct `StuID`s of rows satisfying the mask, then map
  membership over the roster's `Student ID` column, as integers.
* Missing required columns (`CG`, `Y` at the base-mask block, `StuID` and
  `Student ID` inside the first `set_flag` call, on its right-hand side,
  before any column assignment) raise a `KeyError` before any flag column is
  written, so `apply_prerequisites` is embedded as an `Except` that checks
  the four required columns up front and otherwise runs the whole catalog.
-/

namespace Prereq

/-- One row of the records table `res`: the required fields `StuID`, `Y`,
`CG`, and a valuation of the optional subject-score cells (only observed on
columns that the enclosing table lists as present). -/
structure Row where
  stuID : String
  y : Int
  cg : String
  fields : String → String

/-- The records table `res`: presence of the three required columns, the
names of the optional columns present in the table, and the rows. -/
structure RecTable where
  hasStuID : Bool
  hasY : Bool
  hasCG : Bool
  cols : List String
  rows : List Row

/-- A cell as produced by the safe getter `sget`: either a real string cell
from a present column, or the boolean default broadcast over an absent
column. -/
inductive Val where
  | vstr (s : String)
  | vbool (b : Bool)
deriving DecidableEq

/-- Pandas `Series.isin` on a list of grade strings: a boolean default cell
matches no grade string. -/
def Val.isin : Val → List String → Bool
  | .vstr s, l => l.contains s
  | .vbool _, _ => false

/-- Pandas `== t` for a string scalar `t`: a boolean cell is never equal to
a string. -/
def Val.eqS : Val → String → Bool
  | .vstr s, t => s == t
  | .vbool _, _ => false

/-- Pandas `!= t` for a string scalar `t`: the complement of `eqS`; in
particular a boolean `False` default cell IS `!= ''`. -/
def Val.neS (v : Val) (t : String) : Bool := !(v.eqS t)

/-- Source lines 18-23: safe column getter.  If the column exists, the row's
cell; otherwise the default `False` (the source never passes an explicit
default). -/
def sget (res : RecTable) (r : Row) (col : String) : Val :=
  if res.cols.contains col then .vstr (r.fields col) else .vbool false

/-- Deep embedding of the boolean-series expressions the source builds over
`res`.  Each constructor is one combinator actually used by the source. -/
inductive Pred where
  | yEq (n : Int)
  | cgIn (l : List String)
  | colIn (c : String) (l : List String)
  | colEq (c : String) (t : String)
  | colNe (c : String) (t : String)
  | presentNe (c : String) (t : String)
  | pand (p q : Pred)
  | por (p q : Pred)
deriving DecidableEq

/-- Evaluation of a rule predicate on one record row, with the table in
scope for column-presence tests (`sget`, and the `col in res` guard of the
U34-English mask). -/
def Pred.eval : Pred → RecTable → Row → Bool
  | .yEq n, _, r => r.y == n
  | .cgIn l, _, r => l.contains r.cg
  | .colIn c l, res, r => (sget res r c).isin l
  | .colEq c t, res, r => (sget res r c).eqS t
  | .colNe c t, res, r => (sget res r c).neS t
  | .presentNe c t, res, r =>
      if res.cols.contains c then (Val.vstr (r.fields c)).neS t else false
  | .pand p q, res, r => p.eval res r && q.eval res r
  | .por p q, res, r => p.eval res r || q.eval res r

/-- The optional columns a predicate reads (required columns `Y` and `CG`
are always present when evaluation runs and are not tracked). -/
def Pred.reads : Pred → List String
  | .yEq _ => []
  | .cgIn _ => []
  | .colIn c _ => [c]
  | .colEq c _ => [c]
  | .colNe c _ => [c]
  | .presentNe c _ => [c]
  | .pand p q => p.reads ++ q.reads
  | .por p q => p.reads ++ q.reads

/-! Base masks, source lines 33-80.  The source's `new` is named `newAny`
here (`new` is unusable as a Lean identifier); every other name is kept. -/

def new5 : Pred := .cgIn ["N5"]

def new4 : Pred := .cgIn ["N4", "N5"]

def new3 : Pred := .cgIn ["N3", "N4", "N5"]

def newAny : Pred := .cgIn ["N2", "N3", "N4", "N5"]

def cgtop3 : Pred := .cgIn ["B+", "A", "A+"]

def cgtop4 : Pred := .cgIn ["B", "B+", "A", "A+"]

def y6 : Pred := .yEq 6

def y7 : Pred := .yEq 7

def y8 : Pred := .yEq 8

def y9 : Pred := .yEq 9

def y10 : Pred := .yEq 10

def y11 : Pred := .yEq 11

def y12 : Pred := .yEq 12

def early_VCE : Pred :=
  .pand y9 (.por (.cgIn ["D+", "C", "C+", "B", "B+", "A", "A+"]) new3)

def early_VCE_mid : Pred :=
  .pand y9 (.por (.cgIn ["B", "B+", "A", "A+"]) new5)

def early_VCE_high : Pred :=
  .pand y9 (.por (.cgIn ["A", "A+"]) new5)

def art_high : Pred :=
  .pand y9 (.pand cgtop3
    (.por (.por (.por (.por (.por
      (.colIn "ARDE" ["A", "A+"]) (.colIn "DRPA" ["A", "A+"]))
      (.colIn "GRDE" ["A", "A+"])) (.colIn "PHO" ["A", "A+"]))
      (.colIn "SCME" ["A", "A+"])) (.colIn "SCPR" ["A", "A+"])))

def hum_high : Pred :=
  .pand y9 (.pand cgtop3
    (.por (.por (.por
      (.colIn "HIS1" ["A", "A+"]) (.colIn "RV3" ["A", "A+"]))
      (.colIn "GEO1" ["A", "A+"])) (.colIn "EB" ["A", "A+"])))

def mat_high : Pred :=
  .pand y9 (.pand cgtop3 (.por (.colIn "AMAT1" ["A+"]) new5))

def sci_high : Pred :=
  .pand y9 (.pand cgtop3 (.por (.colIn "RSC1" ["A", "A+"]) new5))

def pe_high : Pred :=
  .pand y9 (.pand cgtop3
    (.por (.por (.colIn "HPE3" ["A", "A+"]) (.colIn "DE" ["A", "A+"]))
      (.colIn "RFIT" ["A", "A+"])))

def mat_high10 : Pred :=
  .pand y10 (.por
    (.pand (.colIn "IMAT2" ["A", "A+"]) (.colEq "IMAT3" "S2"))
    (.colIn "AMAT2" ["B+", "A", "A+"]))

def mat_mid10 : Pred :=
  .pand y10 (.por
    (.pand (.colIn "IMAT2" ["B+", "A", "A+"]) (.colEq "IMAT3" "S2"))
    (.colIn "AMAT2" ["B", "B+", "A", "A+"]))

def sci_mid10 : Pred :=
  .pand y10 (.por (.colIn "SCI4" ["B", "B+", "A", "A+"])
    (.colIn "RSC1" ["B", "B+", "A", "A+"]))

def sci_minmid10 : Pred :=
  .pand y10 (.por (.colIn "SCI4" ["C+", "B", "B+", "A", "A+"])
    (.colIn "RSC1" ["C+", "B", "B+", "A", "A+"]))

def sci_min10 : Pred :=
  .pand y10 (.por (.colIn "SCI4" ["C", "C+", "B", "B+", "A", "A+"])
    (.colIn "RSC1" ["C", "C+", "B", "B+", "A", "A+"]))

/-- Source lines 148-149: the mask of the `if 'SVF' in res` branch for
'Social Values in Film'. -/
def svfPred : Pred := .pand (.colEq "SVF" "") (.por y8 y9)

/-- Source lines 232-236: `mask_any_u12_english`, a presence-guarded OR of
`res[col] != ''` over the three U12 English columns (an absent column is
skipped, contributing false). -/
def anyU12English : Pred :=
  .por (.por (.presentNe "ENGU12" "") (.presentNe "ELANU12" ""))
    (.presentNe "LITU12" "")

/-! The roster table `df`, modelled column-wise. -/

/-- A roster column: either a string column (such as `Student ID` or any
pre-existing roster column) or an integer flag column. -/
inductive Col where
  | strs (l : List String)
  | ints (l : List Nat)
deriving DecidableEq

/-- Ordered named columns of the roster table. -/
structure DF where
  cols : List (String × Col)
deriving DecidableEq

/-- First column with the given name (pandas column lookup). -/
def lookupCol : List (String × Col) → String → Option Col
  | [], _ => none
  | p :: t, s => if p.1 == s then some p.2 else lookupCol t s

/-- Column of `df` named `s`, if any. -/
def getCol? (df : DF) (s : String) : Option Col := lookupCol df.cols s

/-- Does a column with this name exist? -/
def hasColName (l : List (String × Col)) (n : String) : Bool :=
  l.any (fun p => p.1 == n)

/-- Replace the value of every column named `n`. -/
def updateCol (l : List (String × Col)) (n : String) (v : Col) :
    List (String × Col) :=
  l.map (fun p => if p.1 == n then (n, v) else p)

/-- Pandas column assignment `df[n] = v`: overwrite in place when the name
exists, append a new column at the end otherwise. -/
def setCol (df : DF) (n : String) (v : Col) : DF :=
  if hasColName df.cols n then ⟨updateCol df.cols n v⟩
  else ⟨df.cols ++ [(n, v)]⟩

/-- The roster's `Student ID` column as a list of strings (the required
join key; guarded by `apply_prerequisites` before use). -/
def studentIDs (df : DF) : List String :=
  match getCol? df "Student ID" with
  | some (.strs l) => l
  | _ => []

/-- The flag list written by `set_flag` (source lines 25-28): the distinct
`StuID`s of the record rows satisfying the mask, then 0/1 membership of each
roster `Student ID` in that set. -/
def flagColumn (res : RecTable) (mask : Row → Bool) (sids : List String) :
    List Nat :=
  let valid := ((res.rows.filter mask).map Row.stuID).dedup
  sids.map (fun s => if valid.contains s then 1 else 0)

/-- Source lines 25-28: `set_flag(mask, colname)` writes the flag column
into `df`. -/
def set_flag (res : RecTable) (mask : Row → Bool) (colname : String)
    (df : DF) : DF :=
  setCol df colname (Col.ints (flagColumn res mask (studentIDs df)))

/-! The catalog of `set_flag` calls, in source order. -/

/-- One statement of the rule block: either a plain `set_flag(pred, name)`
call, or the special `if 'SVF' in res` statement of source lines 148-151
('Social Values in Film' is the only subject written through such a
column-presence branch). -/
inductive Action where
  | flag (name : String) (p : Pred)
  | svfBranch
deriving DecidableEq

/-- The roster column name an action writes. -/
def Action.name : Action → String
  | .flag n _ => n
  | .svfBranch => "Social Values in Film"

/-- The optional columns an action's rule reads (the SVF branch reads the
`SVF` column, through both its presence test and its mask). -/
def Action.reads : Action → List String
  | .flag _ p => p.reads
  | .svfBranch => ["SVF"]

/-- Execute one statement on the roster (source lines 85-253; the
`else` branch of lines 150-151 broadcasts the scalar 0 over all roster
rows). -/
def runAction (res : RecTable) (df : DF) : Action → DF
  | .flag n p => set_flag res (p.eval res) n df
  | .svfBranch =>
      if res.cols.contains "SVF" then
        set_flag res (svfPred.eval res) "Social Values in Film" df
      else
        setCol df "Social Values in Film"
          (Col.ints (List.replicate (studentIDs df).length 0))

/-- Catalog segment 1 (see `catalog`). -/
def catalogPart1 : List Action := [
  -- Year 7 block (mask y6), lines 85-90
  .flag "Design and Technologies" y6,
  .flag "Digital Technologies" y6,
  .flag "Drama 1" y6,
  .flag "English 1" y6,
  .flag "Health and Physical Education 1" y6,
  .flag "Humanities 1" y6,
  .flag "Mathematics 1" y6,
  .flag "Music 1" y6,
  .flag "Religion and Values 1" y6,
  .flag "Science 1" y6,
  .flag "Visual Arts 1" y6,
  .flag "Arabic 1"
    (.pand y6 (.por (.colIn "ARA" ["C5", "C4", "C3", "C2", "C1", "B2", "B1", "A"]) newAny)),
  .flag "Turkish 1" (.pand (.por (.por y6 y7) y8) newAny),
  .flag "Turkish 2"
    (.por (.por (.pand y6 (.colNe "TUR" "")) (.pand y7 (.colNe "TUR1" "")))
      (.pand y6 (.colIn "BTUR" ["A", "B1", "B2"]))),
  .flag "Turkish 5" (.pand y6 (.colNe "ATUR" "")),
  -- Year 8 block (mask y7), lines 100-105
  .flag "Drama 2" y7,
  .flag "English 2" y7,
  .flag "Food Technology" y7,
  .flag "Health and Physical Education 2" y7,
  .flag "Humanities 2" y7,
  .flag "Mathematics 2" y7,
  .flag "Media" y7
]

/-- Catalog segment 2 (see `catalog`). -/
def catalogPart2 : List Action := [
  .flag "Music 2" y7,
  .flag "Programming" y7,
  .flag "Religion and Values 2" y7,
  .flag "Robotics 1" y7,
  .flag "Science 2" y7,
  .flag "Textiles" y7,
  .flag "Visual Arts 2" y7,
  .flag "Arabic 2" (.por (.colNe "ARA1" "") (.pand y7 newAny)),
  .flag "Turkish 3" (.pand (.colNe "TUR2" "") (.por y7 y8)),
  .flag "Turkish 6" (.pand (.colNe "TUR5" "") y7),
  -- Year 9 block (mask y8), lines 114-118
  .flag "English 3" y8,
  .flag "Health and Physical Education 3" y8,
  .flag "History 1" y8,
  .flag "Intermediate Mathematics 1" y8,
  .flag "Religion and Values 3" y8,
  .flag "Science 3" y8,
  .flag "Advanced Mathematics 1" (.pand y8 (.por (.colIn "MAT2" ["A", "A+"]) new5)),
  .flag "Arabic 3" (.por (.colNe "ARA2" "") (.pand y8 newAny)),
  .flag "Architecture and Design" (.pand (.colEq "ARDE" "") (.por y8 y9)),
  .flag "Behavioural Science" (.por y8 y9),
  .flag "Civics and Citizenship" (.pand (.colEq "CC" "") (.por y8 y9)),
  .flag "Debating and Public Speaking" (.por y8 y9),
  .flag "Drama 3" (.por y8 y9)
]

/-- Catalog segment 3 (see `catalog`). -/
def catalogPart3 : List Action := [
  .flag "Drawing and Painting" (.pand (.colEq "DRPA" "") (.por y8 y9)),
  .flag "Duke of Edinburgh" (.por y8 y9),
  .flag "Economics and Business" (.pand (.colEq "EB" "") (.por y8 y9)),
  .flag "Fashion and Textile Trends" (.pand (.colEq "FATT" "") (.por y8 y9)),
  .flag "Food and the Food Industry" (.pand (.colEq "FI" "") (.por y8 y9)),
  .flag "Geography 1" (.pand (.colEq "GEO1" "") (.por y8 y9)),
  .flag "Graphic Design" (.pand (.colEq "GRDE" "") (.por y8 y9)),
  .flag "Innovation" (.pand (.colEq "INN" "") (.por y8 y9)),
  .flag "Introduction to Artificial Intelligence" (.por y8 y9),
  .flag "Music 3" (.por y8 y9),
  .flag "Photography" (.pand (.colEq "PHO" "") (.por y8 y9)),
  .flag "Recreational Fitness"
    (.pand (.pand (.colEq "RFIT" "") (.por y8 y9))
      (.por (.por (.colIn "HPE2" ["C", "C+", "B", "B+", "A", "A+"])
        (.colIn "HPE3" ["C", "C+", "B", "B+", "A", "A+"])) new5)),
  .flag "Recreational Mathematics" (.pand (.colEq "RMAT" "") (.por y8 y9)),
  .flag "Research Science 1"
    (.por (.pand y8 (.por (.colIn "SCI2" ["B+", "A", "A+"]) new4))
      (.pand y9 (.por (.colIn "SCI3" ["C+", "B", "B+", "A", "A+"]) new4))),
  .flag "Research Science 2" (.pand y8 (.por (.colIn "SCI2" ["B+", "A", "A+"]) new4)),
  .flag "Robotics 2" (.pand (.colEq "ROB2" "") (.por y8 y9)),
  .flag "Screen and Media" (.pand (.colEq "SCME" "") (.por y8 y9)),
  .flag "Sculpture and Printmaking" (.pand (.colEq "SCPR" "") (.por y8 y9)),
  .svfBranch,
  .flag "Stagecraft and Production" (.por y8 y9),
  .flag "Technology Start-Ups" (.por y8 y9),
  .flag "Turkish 7" (.pand (.colNe "TUR6" "") y8),
  .flag "Volunteering Skills" (.pand (.colEq "VS" "") (.por y8 y9)),
  .flag "Web Design and Cyber Security" (.pand (.colEq "WDCS" "") (.por y8 y9))
]

/-- Catalog segment 4 (see `catalog`). -/
def catalogPart4 : List Action := [
  -- Year 10 block (mask y9), lines 162-167
  .flag "Certificate II in Workplace Skills" y9,
  .flag "English 4" y9,
  .flag "Health and Physical Education 4" y9,
  .flag "History 2" y9,
  .flag "Intermediate Mathematics 2" y9,
  .flag "Intermediate Mathematics 3" y9,
  .flag "Religion Studies" y9,
  .flag "Science 4" y9,
  .flag "Advanced English"
    (.pand y9 (.por (.pand (.colIn "ENG3" ["B", "B+", "A", "A+"]) cgtop4) new4)),
  .flag "Advanced Mathematics 2"
    (.pand y9 (.por (.por (.colIn "AMAT1" ["C", "C+", "B", "B+", "A", "A+"])
      (.colIn "IMAT1" ["A", "A+"])) new5)),
  .flag "Extended Mathematics"
    (.pand y9 (.por (.por (.colIn "AMAT1" ["C", "C+", "B", "B+", "A", "A+"])
      (.colIn "IMAT1" ["A", "A+"])) new5)),
  -- Unit 1-2 block (mask y10), lines 176-180
  .flag "Drama U12" y10,
  .flag "English Language U12" y10,
  .flag "English U12" y10,
  .flag "General Mathematics U12" y10,
  .flag "Literature U12" y10,
  .flag "VCE VET Business U12" y10,
  .flag "VCE VET Sport and Recreation U12" y10,
  .flag "Art Creative Practice U12" (.por (.por y10 early_VCE_high) art_high),
  .flag "Theatre Studies U12" (.por (.por y10 early_VCE_high) art_high),
  .flag "Visual Communication Design U12" (.por (.por y10 early_VCE_high) art_high),
  .flag "Economics U12" (.por (.por y10 early_VCE_high) hum_high)
]

/-- Catalog segment 5 (see `catalog`). -/
def catalogPart5 : List Action := [
  .flag "History U12" (.por (.por y10 early_VCE_high) hum_high),
  .flag "Legal Studies U12" (.por (.por y10 early_VCE_high) hum_high),
  .flag "Texts and Traditions U12" (.por (.por y10 early_VCE_high) hum_high),
  .flag "Politics U12" (.por (.por y10 early_VCE_high) hum_high),
  .flag "Sociology U12" (.por (.por y10 early_VCE_high) hum_high),
  .flag "Chemistry U12"
    (.por (.por (.pand y10 (.por sci_mid10 new4)) (.pand early_VCE_high sci_high))
      (.pand new5 (.por y9 y10))),
  .flag "Physics U12"
    (.por (.por (.pand y10 (.por sci_minmid10 new4)) (.pand early_VCE_high sci_high))
      (.pand new5 (.por y9 y10))),
  .flag "Applied Computing U12" (.pand (.colEq "ACOMU12" "") (.por y10 early_VCE)),
  .flag "Biology U12"
    (.por (.por (.por
      (.pand (.pand y9 cgtop4)
        (.por (.colIn "SCI3" ["B+", "A", "A+"]) (.colNe "RSC1" "")))
      (.pand y9 new4)) (.pand y10 new4))
      (.pand (.pand y10 sci_min10) (.colEq "BIOU12" ""))),
  .flag "Business Management U12" (.pand (.colEq "BMU12" "") (.por y10 early_VCE)),
  .flag "Health and Human Development U12"
    (.pand (.colEq "HHDU12" "") (.por y10 early_VCE)),
  .flag "Mathematical Methods U12"
    (.por (.por (.pand y10 (.por mat_mid10 new4)) (.pand early_VCE_high mat_high))
      (.pand new5 (.por y9 y10))),
  .flag "Outdoor and Environmental Studies U12" (.por (.por y10 early_VCE_high) pe_high),
  .flag "Physical Education U12" (.por (.por y10 early_VCE_high) pe_high),
  .flag "Product Design and Technologies U12" (.por y10 early_VCE_mid),
  .flag "Psychology U12"
    (.por (.por (.por
      (.pand (.pand y9 cgtop4)
        (.por (.colIn "SCI3" ["B", "B+", "A", "A+"]) (.colNe "RSC1" "")))
      (.pand y9 new4)) (.pand y10 new4))
      (.pand (.pand y10 sci_min10) (.colEq "PSYU12" ""))),
  .flag "Specialist Mathematics U12"
    (.por (.pand y10 (.por mat_high10 new4)) (.pand new5 y10)),
  .flag "Turkish U12" (.pand (.por y9 y10) (.colNe "TUR7" "")),
  -- Unit 3-4 block, lines 220-253
  .flag "Art Creative Practice U34" (.colNe "ACPU12" ""),
  .flag "Biology U34" (.colNe "BIOU12" ""),
  .flag "Business Management U34" (.colNe "BMU12" ""),
  .flag "Chemistry U34" (.colNe "CHEU12" ""),
  .flag "Data Analytics U34" (.colNe "ACOMU12" "")
]

/-- Catalog segment 6 (see `catalog`). -/
def catalogPart6 : List Action := [
  .flag "Software Development U34" (.colNe "ACOMU12" ""),
  .flag "Drama U34" (.colNe "DRAU12" ""),
  .flag "Economics U34" (.colNe "ECOU12" ""),
  .flag "English U34" anyU12English,
  .flag "English Language U34" anyU12English,
  .flag "Literature U34" anyU12English,
  .flag "General Mathematics U34"
    (.por (.por (.por (.colNe "GMATU12" "") (.colNe "MATMU12" "")) mat_high10)
      (.pand y10 new4)),
  .flag "Health and Human Development U34" (.colNe "HHDU12" ""),
  .flag "History U34" (.colNe "HISU12" ""),
  .flag "Legal Studies U34" (.colNe "LEGU12" ""),
  .flag "Mathematical Methods U34" (.colNe "MATMU12" ""),
  .flag "Physical Education U34" (.colNe "PEU12" ""),
  .flag "Physics U34" (.colNe "PHYU12" ""),
  .flag "Psychology U34" (.colNe "PSYU12" ""),
  .flag "Specialist Mathematics U34"
    (.por (.por (.colNe "SMATU12" "")
      (.pand y11 (.colIn "MATMU12" ["B+", "A", "A+"]))) (.pand y11 new5)),
  .flag "Turkish U34" (.colNe "TURU12" ""),
  .flag "VCE VET Business U34" (.colNe "VBUSU12" ""),
  .flag "VCE VET Sport and Recreation U34" (.colNe "VSRU12" ""),
  .flag "Visual Communication Design U34" (.colNe "VCDU12" "")
]

/-- The full rule catalog, one entry per `set_flag` call (loops unrolled),
in the exact order of the source. -/
def catalog : List Action :=
  catalogPart1 ++ catalogPart2 ++ catalogPart3 ++ catalogPart4 ++ catalogPart5 ++ catalogPart6

/-- The subject/column names written by the catalog, in order. -/
def catalogNames : List String := catalog.map Action.name

/-- Run the whole rule block over the roster. -/
def applyAll (res : RecTable) (df : DF) : DF :=
  catalog.foldl (runAction res) df

/-- Source function `apply_prerequisites(res, df)`.  A missing required
column (`CG` or `Y` in the base-mask block of lines 33-46; `StuID` on line
27 and `Student ID` on the right-hand side of line 28, both inside the
first `set_flag` call and both evaluated before any column assignment)
raises a `KeyError` before any flag column is written, embedded here as an
up-front `Except.error`; otherwise every catalog rule is applied and the
augmented roster is returned. -/
def apply_prerequisites (res : RecTable) (df : DF) : Except String DF :=
  if !res.hasCG then .error "KeyError: CG"
  else if !res.hasY then .error "KeyError: Y"
  else if !res.hasStuID then .error "KeyError: StuID"
  else if (getCol? df "Student ID").isNone then .error "KeyError: Student ID"
  else .ok (applyAll res df)

/-- Drop one optional column from the records table (the rows' hidden cell
valuations are untouched; a dropped column's cells are unobservable, since
every access is guarded by column presence). -/
def removeCol (res : RecTable) (c : String) : RecTable :=
  { res with cols := res.cols.filter (fun x => !(x == c)) }

/-- The flag list an action writes, given the roster's `Student ID` column. -/
def colOf (res : RecTable) (sids : List String) : Action → List Nat
  | .flag _ p => flagColumn res (p.eval res) sids
  | .svfBranch =>
      if res.cols.contains "SVF" then flagColumn res (svfPred.eval res) sids
      else List.replicate sids.length 0

/-- The effective per-row predicate of an action: its rule mask, or the
never-true mask for the SVF `else` branch (which writes a constant 0). -/
def subjectPred (res : RecTable) : Action → Row → Bool
  | .flag _ p => p.eval res
  | .svfBranch =>
      if res.cols.contains "SVF" then svfPred.eval res else fun _ => false

/-- The last catalog action writing the given subject column (pandas keeps
the last assignment; catalog names are in fact distinct). -/
def findAction (s : String) : Option Action :=
  catalog.reverse.find? (fun b => b.name == s)

/-- The predicate of the subject named `s` (never-true for a name outside
the catalog). -/
def subjectPredOf (res : RecTable) (s : String) : Row → Bool :=
  match findAction s with
  | some a => subjectPred res a
  | none => fun _ => false

/-! Column-store lemmas. -/

@[simp] theorem lookupCol_nil (s : String) : lookupCol [] s = none := rfl

@[simp] theorem lookupCol_cons (p : String × Col) (t : List (String × Col))
    (s : String) :
    lookupCol (p :: t) s = if p.1 = s then some p.2 else lookupCol t s := by
  by_cases h : p.1 = s <;> simp [lookupCol, h]

@[simp] theorem updateCol_nil (n : String) (v : Col) : updateCol [] n v = [] := rfl

@[simp] theorem updateCol_cons (p : String × Col) (t : List (String × Col))
    (n : String) (v : Col) :
    updateCol (p :: t) n v = (if p.1 = n then (n, v) else p) :: updateCol t n v := by
  by_cases h : p.1 = n <;> simp [updateCol, h]

@[simp] theorem hasColName_nil (n : String) : hasColName [] n = false := rfl

@[simp] theorem hasColName_cons (p : String × Col) (t : List (String × Col))
    (n : String) :
    hasColName (p :: t) n = (decide (p.1 = n) || hasColName t n) := by
  by_cases h : p.1 = n <;> simp [hasColName, h]

theorem lookup_update_self (l : List (String × Col)) (n : String) (v : Col)
    (h : hasColName l n = true) : lookupCol (updateCol l n v) n = some v := by
  induction l with
  | nil => simp at h
  | cons p t ih =>
      by_cases hp : p.1 = n
      · simp [hp]
      · simp only [hasColName_cons, Bool.or_eq_true, decide_eq_true_eq] at h
        rcases h with h | h
        · exact absurd h hp
        · simp [hp, ih h]

theorem lookup_update_ne (l : List (String × Col)) (n s : String) (v : Col)
    (h : s ≠ n) : lookupCol (updateCol l n v) s = lookupCol l s := by
  induction l with
  | nil => rfl
  | cons p t ih =>
      by_cases hp : p.1 = n
      · have h1 : ¬(n = s) := fun hns => h hns.symm
        have h2 : ¬(p.1 = s) := fun hps => h1 (hp ▸ hps)
        simp [hp, h1, h2, ih]
      · simp [hp, ih]

theorem lookup_append_last (l : List (String × Col)) (n : String) (v : Col)
    (h : hasColName l n = false) : lookupCol (l ++ [(n, v)]) n = some v := by
  induction l with
  | nil => simp
  | cons p t ih =>
      simp only [hasColName_cons, Bool.or_eq_false_iff, decide_eq_false_iff_not] at h
      simp [List.cons_append, h.1, ih h.2]

theorem lookup_append_last_ne (l : List (String × Col)) (n s : String) (v : Col)
    (h : s ≠ n) : lookupCol (l ++ [(n, v)]) s = lookupCol l s := by
  induction l with
  | nil =>
      have h1 : ¬(n = s) := fun hns => h hns.symm
      simp [h1]
  | cons p t ih =>
      by_cases hp : p.1 = s
      · simp [hp]
      · simp [hp, ih]

theorem getCol?_setCol_self (df : DF) (n : String) (v : Col) :
    getCol? (setCol df n v) n = some v := by
  unfold getCol? setCol
  by_cases h : hasColName df.cols n = true
  · simp [h, lookup_update_self]
  · simp [h, lookup_append_last, Bool.eq_false_iff.mpr h]

theorem getCol?_setCol_ne (df : DF) (n s : String) (v : Col) (h : s ≠ n) :
    getCol? (setCol df n v) s = getCol? df s := by
  unfold getCol? setCol
  by_cases hc : hasColName df.cols n = true
  · simp [hc, lookup_update_ne _ _ _ _ h]
  · simp [hc, lookup_append_last_ne _ _ _ _ h]

theorem studentIDs_setCol (df : DF) (n : String) (v : Col)
    (h : n ≠ "Student ID") : studentIDs (setCol df n v) = studentIDs df := by
  unfold studentIDs
  rw [getCol?_setCol_ne df n "Student ID" v (fun he => h he.symm)]

/-! Action-level lemmas. -/

theorem runAction_eq_setCol (res : RecTable) (df : DF) (a : Action) :
    runAction res df a = setCol df a.name (Col.ints (colOf res (studentIDs df) a)) := by
  cases a with
  | flag n p => rfl
  | svfBranch =>
      simp only [runAction, colOf, set_flag, Action.name]
      cases h : res.cols.contains "SVF" <;> simp

theorem colOf_length (res : RecTable) (sids : List String) (a : Action) :
    (colOf res sids a).length = sids.length := by
  cases a with
  | flag n p => simp [colOf, flagColumn]
  | svfBranch =>
      simp only [colOf]
      cases h : res.cols.contains "SVF" <;> simp [flagColumn]

theorem getCol?_runAction_self (res : RecTable) (df : DF) (a : Action) :
    getCol? (runAction res df a) a.name =
      some (Col.ints (colOf res (studentIDs df) a)) := by
  rw [runAction_eq_setCol]; exact getCol?_setCol_self _ _ _

theorem getCol?_runAction_ne (res : RecTable) (df : DF) (a : Action)
    (s : String) (h : s ≠ a.name) :
    getCol? (runAction res df a) s = getCol? df s := by
  rw [runAction_eq_setCol]; exact getCol?_setCol_ne _ _ _ _ h

theorem studentIDs_runAction (res : RecTable) (df : DF) (a : Action)
    (h : a.name ≠ "Student ID") :
    studentIDs (runAction res df a) = studentIDs df := by
  rw [runAction_eq_setCol]; exact studentIDs_setCol _ _ _ h

/-! Fold lemmas over a list of actions. -/

theorem getCol?_runActions_ne (res : RecTable) (acts : List Action) (df : DF)
    (s : String) (h : ∀ a ∈ acts, s ≠ a.name) :
    getCol? (acts.foldl (runAction res) df) s = getCol? df s := by
  induction acts generalizing df with
  | nil => rfl
  | cons a t ih =>
      rw [List.foldl_cons, ih _ (fun b hb => h b (List.mem_cons_of_mem a hb))]
      exact getCol?_runAction_ne _ _ _ _ (h a (List.mem_cons_self a t))

theorem studentIDs_runActions (res : RecTable) (acts : List Action) (df : DF)
    (h : ∀ a ∈ acts, a.name ≠ "Student ID") :
    studentIDs (acts.foldl (runAction res) df) = studentIDs df := by
  induction acts generalizing df with
  | nil => rfl
  | cons a t ih =>
      rw [List.foldl_cons, ih _ (fun b hb => h b (List.mem_cons_of_mem a hb)),
        studentIDs_runAction _ _ _ (h a (List.mem_cons_self a t))]

theorem find?_append_left {α : Type} (p : α → Bool) (l1 l2 : List α) (b : α)
    (h : l1.find? p = some b) : (l1 ++ l2).find? p = some b := by
  induction l1 with
  | nil => simp at h
  | cons x t ih =>
      by_cases hx : p x
      · rw [List.find?_cons_of_pos _ hx] at h
        rw [List.cons_append, List.find?_cons_of_pos _ hx]
        exact h
      · rw [List.find?_cons_of_neg _ (by simpa using hx)] at h
        rw [List.cons_append, List.find?_cons_of_neg _ (by simpa using hx)]
        exact ih h

theorem find?_append_right {α : Type} (p : α → Bool) (l1 l2 : List α)
    (h : ∀ x ∈ l1, p x = false) : (l1 ++ l2).find? p = l2.find? p := by
  induction l1 with
  | nil => rfl
  | cons x t ih =>
      have hx := h x (List.mem_cons_self x t)
      rw [List.cons_append, List.find?_cons_of_neg _ (by simp [hx])]
      exact ih (fun y hy => h y (List.mem_cons_of_mem x hy))

/-- Main extraction lemma: if `s` is among the written names, the final
value of column `s` is the flag list of the LAST action writing `s`
(assignments overwrite), computed against the roster's unchanged
`Student ID` column. -/
theorem runActions_found (res : RecTable) (acts : List Action) (df : DF)
    (s : String) (hsid : ∀ a ∈ acts, a.name ≠ "Student ID")
    (hs : s ∈ acts.map Action.name) :
    ∃ a, acts.reverse.find? (fun b => b.name == s) = some a ∧
      getCol? (acts.foldl (runAction res) df) s =
        some (Col.ints (colOf res (studentIDs df) a)) := by
  induction acts generalizing df with
  | nil => simp at hs
  | cons a t ih =>
      by_cases ht : s ∈ t.map Action.name
      · rcases ih (runAction res df a)
            (fun b hb => hsid b (List.mem_cons_of_mem a hb)) ht with ⟨b, hb1, hb2⟩
        refine ⟨b, ?_, ?_⟩
        · rw [List.reverse_cons]
          exact find?_append_left _ _ _ _ hb1
        · rw [List.foldl_cons, hb2,
            studentIDs_runAction _ _ _ (hsid a (List.mem_cons_self a t))]
      · have ha : a.name = s := by
          rcases List.mem_map.mp hs with ⟨b, hb, he⟩
          rcases List.mem_cons.mp hb with rfl | hb
          · exact he
          · exact absurd (List.mem_map.mpr ⟨b, hb, he⟩) ht
        have htn : ∀ x ∈ t.reverse, (fun b => b.name == s) x = false := by
          intro x hx
          have : x.name ≠ s := fun he =>
            ht (List.mem_map.mpr ⟨x, List.mem_reverse.mp hx, he⟩)
          simpa using this
        have hne : ∀ b ∈ t, s ≠ b.name :=
          fun b hb he => ht (List.mem_map.mpr ⟨b, hb, he.symm⟩)
        refine ⟨a, ?_, ?_⟩
        · rw [List.reverse_cons, find?_append_right _ _ _ htn,
            List.find?_cons_of_pos _ (by simp [ha])]
        · rw [List.foldl_cons, getCol?_runActions_ne _ _ _ _ hne, ← ha]
          exact getCol?_runAction_self _ _ _

/-! Catalog-level facts and pipeline lemmas. -/

set_option maxRecDepth 40000

theorem catalogNames_nodup : catalogNames.Nodup := by decide

theorem studentID_not_catalogName : "Student ID" ∉ catalogNames := by decide

theorem catalog_name_ne_studentID : ∀ a ∈ catalog, a.name ≠ "Student ID" := by
  intro a ha he
  exact studentID_not_catalogName (he ▸ List.mem_map_of_mem Action.name ha)

/-- Column extraction for the full pipeline: the value of subject column `s`
is the flag list of the last catalog action named `s`. -/
theorem applyAll_getCol (res : RecTable) (df : DF) (s : String)
    (hs : s ∈ catalogNames) :
    ∃ a, findAction s = some a ∧
      getCol? (applyAll res df) s =
        some (Col.ints (colOf res (studentIDs df) a)) :=
  runActions_found res catalog df s catalog_name_ne_studentID hs

theorem studentIDs_applyAll (res : RecTable) (df : DF) :
    studentIDs (applyAll res df) = studentIDs df :=
  studentIDs_runActions res catalog df catalog_name_ne_studentID

theorem apply_prerequisites_ok (res : RecTable) (df : DF)
    (h1 : res.hasCG = true) (h2 : res.hasY = true) (h3 : res.hasStuID = true)
    (h4 : (getCol? df "Student ID").isSome = true) :
    apply_prerequisites res df = .ok (applyAll res df) := by
  have h5 : (getCol? df "Student ID").isNone = false := by
    rcases Option.isSome_iff_exists.mp h4 with ⟨v, hv⟩
    simp [hv]
  simp [apply_prerequisites, h1, h2, h3, h5]

/-- Turn a Boolean iff into a Boolean equation. -/
theorem bool_eq_of_iff {a b : Bool} (h : a = true ↔ b = true) : a = b := by
  cases a <;> cases b <;> simp_all

/-- The `unique`-then-`isin` combination of `set_flag` agrees with a direct
existential scan of the record rows. -/
theorem dedup_contains_eq_any (res : RecTable) (m : Row → Bool) (sid : String) :
    ((res.rows.filter m).map Row.stuID).dedup.contains sid =
      res.rows.any (fun r => m r && r.stuID == sid) := by
  apply bool_eq_of_iff
  simp only [List.contains_iff_exists_mem_beq, List.any_eq_true,
    List.mem_dedup, List.mem_map, List.mem_filter, Bool.and_eq_true,
    beq_iff_eq]
  constructor
  · rintro ⟨x, ⟨r, ⟨hr, hm⟩, he⟩, hx⟩
    exact ⟨r, hr, hm, by rw [he, hx]⟩
  · rintro ⟨r, hr, hm, he⟩
    exact ⟨sid, ⟨r, ⟨hr, hm⟩, he⟩, rfl⟩

theorem flagColumn_eq_map (res : RecTable) (m : Row → Bool)
    (sids : List String) :
    flagColumn res m sids =
      sids.map (fun sid =>
        if res.rows.any (fun r => m r && r.stuID == sid) then 1 else 0) := by
  unfold flagColumn
  refine List.map_congr_left (fun sid _ => ?_)
  rw [dedup_contains_eq_any]

theorem colOf_eq_map (res : RecTable) (sids : List String) (a : Action) :
    colOf res sids a =
      sids.map (fun sid =>
        if res.rows.any (fun r => subjectPred res a r && r.stuID == sid)
        then 1 else 0) := by
  cases a with
  | flag n p => simp [colOf, subjectPred, flagColumn_eq_map]
  | svfBranch =>
      simp only [colOf, subjectPred]
      by_cases h : res.cols.contains "SVF" = true
      · simp only [h, if_true, flagColumn_eq_map]
      · simp only [Bool.not_eq_true] at h
        simp only [h, Bool.false_eq_true, if_false]
        have hz : (sids.map (fun sid =>
            if res.rows.any (fun r => (fun _ => false) r && r.stuID == sid)
            then 1 else 0)) =
            List.replicate (sids.map (fun sid =>
              if res.rows.any (fun r => (fun _ => false) r && r.stuID == sid)
              then 1 else 0)).length 0 :=
          List.eq_replicate_of_mem (fun x hx => by
            rcases List.mem_map.mp hx with ⟨sid, _, he⟩
            simpa using he.symm)
        rw [hz, List.length_map]

/-! Removal of one optional column. -/

theorem contains_removeCol (res : RecTable) (c c2 : String) (h : c2 ≠ c) :
    (removeCol res c).cols.contains c2 = res.cols.contains c2 := by
  apply bool_eq_of_iff
  simp [removeCol, List.mem_filter, h]

theorem rows_removeCol (res : RecTable) (c : String) :
    (removeCol res c).rows = res.rows := rfl

theorem sget_removeCol (res : RecTable) (c : String) (r : Row) (col : String)
    (h : col ≠ c) : sget (removeCol res c) r col = sget res r col := by
  simp only [sget]
  rw [contains_removeCol _ _ _ h]

theorem eval_removeCol (p : Pred) (c : String) (res : RecTable) (r : Row)
    (hc : c ∉ p.reads) : p.eval (removeCol res c) r = p.eval res r := by
  induction p with
  | yEq n => rfl
  | cgIn l => rfl
  | colIn c2 l =>
      have h2 : c2 ≠ c := fun he => hc (by simp [Pred.reads, he])
      simp [Pred.eval, sget_removeCol _ _ _ _ h2]
  | colEq c2 t =>
      have h2 : c2 ≠ c := fun he => hc (by simp [Pred.reads, he])
      simp [Pred.eval, sget_removeCol _ _ _ _ h2]
  | colNe c2 t =>
      have h2 : c2 ≠ c := fun he => hc (by simp [Pred.reads, he])
      simp [Pred.eval, sget_removeCol _ _ _ _ h2]
  | presentNe c2 t =>
      have h2 : c2 ≠ c := fun he => hc (by simp [Pred.reads, he])
      simp only [Pred.eval]
      rw [contains_removeCol _ _ _ h2]
  | pand p q ihp ihq =>
      simp only [Pred.reads, List.mem_append, not_or] at hc
      simp [Pred.eval, ihp hc.1, ihq hc.2]
  | por p q ihp ihq =>
      simp only [Pred.reads, List.mem_append, not_or] at hc
      simp [Pred.eval, ihp hc.1, ihq hc.2]

theorem subjectPred_removeCol (a : Action) (c : String) (res : RecTable)
    (hc : c ∉ a.reads) (r : Row) :
    subjectPred (removeCol res c) a r = subjectPred res a r := by
  cases a with
  | flag n p => exact eval_removeCol p c res r hc
  | svfBranch =>
      have h2 : ("SVF" : String) ≠ c := fun he => hc (by simp [Action.reads, he])
      have hcp : c ∉ svfPred.reads := by
        intro hmem
        apply hc
        simpa [svfPred, Pred.reads, y8, y9, Action.reads] using hmem
      simp only [subjectPred]
      rw [contains_removeCol _ _ _ h2]
      cases h : res.cols.contains "SVF" <;> simp
      exact eval_removeCol _ _ _ _ hcp

theorem colOf_removeCol (res : RecTable) (sids : List String) (a : Action)
    (c : String) (hc : c ∉ a.reads) :
    colOf (removeCol res c) sids a = colOf res sids a := by
  rw [colOf_eq_map, colOf_eq_map]
  simp only [rows_removeCol, subjectPred_removeCol a c res hc]

/-! Column-append structure of the pipeline (for the frame property). -/

theorem hasColName_append (l1 l2 : List (String × Col)) (n : String) :
    hasColName (l1 ++ l2) n = (hasColName l1 n || hasColName l2 n) := by
  simp [hasColName, List.any_append]

theorem runActions_cols (res : RecTable) (acts : List Action) (df : DF)
    (hdisj : ∀ a ∈ acts, hasColName df.cols a.name = false)
    (hnodup : (acts.map Action.name).Nodup)
    (hsid : ∀ a ∈ acts, a.name ≠ "Student ID") :
    ∃ extra, (acts.foldl (runAction res) df).cols = df.cols ++ extra ∧
      extra.map Prod.fst = acts.map Action.name ∧
      ∀ pr ∈ extra, ∃ l : List Nat, pr.2 = Col.ints l ∧
        l.length = (studentIDs df).length := by
  induction acts generalizing df with
  | nil => exact ⟨[], by simp, rfl, by simp⟩
  | cons a t ih =>
      have hnotin := hdisj a (List.mem_cons_self a t)
      have hdf1 : (runAction res df a).cols =
          df.cols ++ [(a.name, Col.ints (colOf res (studentIDs df) a))] := by
        rw [runAction_eq_setCol]
        simp [setCol, hnotin]
      have hsid1 : studentIDs (runAction res df a) = studentIDs df :=
        studentIDs_runAction _ _ _ (hsid a (List.mem_cons_self a t))
      have hnd := List.nodup_cons.mp (show (a.name :: t.map Action.name).Nodup from hnodup)
      have hdisj1 : ∀ b ∈ t, hasColName (runAction res df a).cols b.name = false := by
        intro b hb
        rw [hdf1, hasColName_append]
        have hb1 : hasColName df.cols b.name = false :=
          hdisj b (List.mem_cons_of_mem a hb)
        have hb2 : ¬(a.name = b.name) :=
          fun he => hnd.1 (he ▸ List.mem_map_of_mem Action.name hb)
        simp [hb1, hb2]
      rcases ih (runAction res df a) hdisj1 hnd.2
          (fun b hb => hsid b (List.mem_cons_of_mem a hb)) with ⟨extra, he1, he2, he3⟩
      refine ⟨(a.name, Col.ints (colOf res (studentIDs df) a)) :: extra, ?_, ?_, ?_⟩
      · rw [List.foldl_cons, he1, hdf1]
        simp
      · simp [he2]
      · intro pr hpr
        rcases List.mem_cons.mp hpr with rfl | hpr
        · exact ⟨_, rfl, colOf_length _ _ _⟩
        · rcases he3 pr hpr with ⟨l, hl1, hl2⟩
          exact ⟨l, hl1, by rw [hl2, hsid1]⟩

/-- Specialisation of the extraction lemma to a known catalog action. -/
theorem applyAll_col_val (res : RecTable) (df : DF) (s : String) (a : Action)
    (hs : s ∈ catalogNames) (ha : findAction s = some a) :
    getCol? (applyAll res df) s =
      some (Col.ints (colOf res (studentIDs df) a)) := by
  rcases applyAll_getCol res df s hs with ⟨b, hb1, hb2⟩
  rw [ha] at hb1
  obtain rfl : a = b := Option.some.inj hb1
  exact hb2

/-- The pipeline never touches the `Student ID` column. -/
theorem getCol?_applyAll_studentID (res : RecTable) (df : DF) :
    getCol? (applyAll res df) "Student ID" = getCol? df "Student ID" :=
  getCol?_runActions_ne res catalog df "Student ID"
    (fun a ha he => catalog_name_ne_studentID a ha he.symm)

/-- The columns read by the rule of the subject named `s` (computed from the
catalog; the SVF presence branch reads `SVF`). -/
def readsOf (s : String) : List String :=
  match findAction s with
  | some a => a.reads
  | none => []

/-! Concrete tables for scenario theorems and witnesses. -/

/-- A single record row: student "S1", year 10, composite grade "B", every
optional cell empty. -/
def rowS1 : Row := ⟨"S1", 10, "B", fun _ => ""⟩

/-- Records table with `rowS1` and no optional columns at all. -/
def resNoCols : RecTable := ⟨true, true, true, [], [rowS1]⟩

/-- Records table with `rowS1` and a present `BIOU12` column (whose only
cell is the empty string). -/
def resBio : RecTable := ⟨true, true, true, ["BIOU12"], [rowS1]⟩

/-- Roster with the single student "S1". -/
def dfS1 : DF := ⟨[("Student ID", Col.strs ["S1"])]⟩

/-- Spec scenario row: student "S2", year 9, composite grade "N5". -/
def rowS2 : Row := ⟨"S2", 9, "N5", fun _ => ""⟩

/-- Spec scenario record table: `rowS2` and no optional columns. -/
def resS2 : RecTable := ⟨true, true, true, [], [rowS2]⟩

/-- Roster with the single student "S2". -/
def dfS2 : DF := ⟨[("Student ID", Col.strs ["S2"])]⟩

/-- A records table with no required columns at all (and no rows). -/
def resNoCG : RecTable := ⟨true, true, false, [], []⟩

/-! Claim theorems. -/

/-- C3: for every catalog subject and valid inputs, the output column is an
integer list with exactly one entry per roster row, each entry the 0/1
indicator of "some record row with this roster row's `Student ID` satisfies
the subject's predicate" (disjunction across all of the student's record
rows). -/
theorem claim_C3 (res : RecTable) (df : DF) (sids : List String) (s : String)
    (h1 : res.hasCG = true) (h2 : res.hasY = true) (h3 : res.hasStuID = true)
    (h4 : getCol? df "Student ID" = some (Col.strs sids))
    (hs : s ∈ catalogNames) :
    ∃ out l, apply_prerequisites res df = .ok out ∧
      getCol? out s = some (Col.ints l) ∧ l.length = sids.length ∧
      l = sids.map (fun sid =>
        if res.rows.any (fun r => subjectPredOf res s r && r.stuID == sid)
        then 1 else 0) := by
  refine ⟨applyAll res df, _,
    apply_prerequisites_ok res df h1 h2 h3 (by simp [h4]), ?_, ?_, rfl⟩
  · rcases applyAll_getCol res df s hs with ⟨a, ha1, ha2⟩
    rw [ha2, colOf_eq_map]
    have hsid : studentIDs df = sids := by simp [studentIDs, h4]
    have hpred : subjectPredOf res s = subjectPred res a := by
      simp [subjectPredOf, ha1]
    rw [hsid, hpred]
  · simp

/-- Witness for C3 at a concrete input (subject 'Drama 1', scenario
student "S2"). -/
theorem claim_C3_witness :
    (("Drama 1" : String) ∈ catalogNames) ∧
    ∃ out l, apply_prerequisites resS2 dfS2 = .ok out ∧
      getCol? out "Drama 1" = some (Col.ints l) ∧
      l.length = (["S2"] : List String).length ∧
      l = (["S2"] : List String).map (fun sid =>
        if resS2.rows.any (fun r => subjectPredOf resS2 "Drama 1" r && r.stuID == sid)
        then 1 else 0) :=
  ⟨by decide, claim_C3 resS2 dfS2 ["S2"] "Drama 1" rfl rfl rfl rfl (by decide)⟩

/-- C6: with valid inputs, evaluation succeeds (a record `StuID` absent from
the roster simply contributes no roster row: each flag column still has one
entry per roster row), and a roster row whose `Student ID` matches no record
row gets flag 0 for every catalog subject. -/
theorem claim_C6 (res : RecTable) (df : DF) (sids : List String) (s : String)
    (i : Nat) (sid : String)
    (h1 : res.hasCG = true) (h2 : res.hasY = true) (h3 : res.hasStuID = true)
    (h4 : getCol? df "Student ID" = some (Col.strs sids))
    (hs : s ∈ catalogNames)
    (hsi : sids[i]? = some sid)
    (hmiss : ∀ r ∈ res.rows, r.stuID ≠ sid) :
    ∃ out l, apply_prerequisites res df = .ok out ∧
      getCol? out s = some (Col.ints l) ∧ l.length = sids.length ∧
      l[i]? = some 0 := by
  rcases applyAll_getCol res df s hs with ⟨a, ha1, ha2⟩
  refine ⟨applyAll res df, colOf res (studentIDs df) a,
    apply_prerequisites_ok res df h1 h2 h3 (by simp [h4]), ha2, ?_, ?_⟩
  · rw [colOf_length]
    simp [studentIDs, h4]
  · have hsid : studentIDs df = sids := by simp [studentIDs, h4]
    rw [colOf_eq_map, hsid, List.getElem?_map, hsi]
    have hany : res.rows.any (fun r => subjectPred res a r && r.stuID == sid) = false := by
      rw [List.any_eq_false]
      intro r hr
      simp [hmiss r hr]
    simp [hany]
    intro r hr _
    exact hmiss r hr

/-- Witness for C6: roster student "S1" has no record row in `resS2`. -/
theorem claim_C6_witness :
    (("Drama 2" : String) ∈ catalogNames) ∧
    ((["S1"] : List String)[0]? = some "S1") ∧
    (∀ r ∈ resS2.rows, r.stuID ≠ "S1") ∧
    ∃ out l, apply_prerequisites resS2 dfS1 = .ok out ∧
      getCol? out "Drama 2" = some (Col.ints l) ∧
      l.length = (["S1"] : List String).length ∧
      l[0]? = some 0 :=
  ⟨by decide, by decide, by decide,
    claim_C6 resS2 dfS1 ["S1"] "Drama 2" 0 "S1" rfl rfl rfl rfl
      (by decide) (by decide) (by decide)⟩

/-- Unfolding of the U34-English mask to a plain Boolean expression:
presence-guarded non-emptiness of the three U12 English columns. -/
theorem anyU12English_eval (res : RecTable) (r : Row) :
    anyU12English.eval res r =
      (((res.cols.contains "ENGU12" && !(r.fields "ENGU12" == "")) ||
        (res.cols.contains "ELANU12" && !(r.fields "ELANU12" == ""))) ||
       (res.cols.contains "LITU12" && !(r.fields "LITU12" == ""))) := by
  simp only [anyU12English, Pred.eval, Val.neS, Val.eqS]
  cases h1 : res.cols.contains "ENGU12" <;>
    cases h2 : res.cols.contains "ELANU12" <;>
      cases h3 : res.cols.contains "LITU12" <;> simp

/-- C9: the columns 'English U34', 'English Language U34' and
'Literature U34' always receive one and the same flag list, whose entry for
a roster row is 1 iff some record row of that student has a non-empty value
in one of the record columns `ENGU12`, `ELANU12`, `LITU12` that is actually
present (an absent column is skipped, never defaulted). -/
theorem claim_C9 (res : RecTable) (df : DF) (sids : List String)
    (h1 : res.hasCG = true) (h2 : res.hasY = true) (h3 : res.hasStuID = true)
    (h4 : getCol? df "Student ID" = some (Col.strs sids)) :
    ∃ out l, apply_prerequisites res df = .ok out ∧
      getCol? out "English U34" = some (Col.ints l) ∧
      getCol? out "English Language U34" = some (Col.ints l) ∧
      getCol? out "Literature U34" = some (Col.ints l) ∧
      l = sids.map (fun sid =>
        if res.rows.any (fun r =>
          ((((res.cols.contains "ENGU12" && !(r.fields "ENGU12" == "")) ||
             (res.cols.contains "ELANU12" && !(r.fields "ELANU12" == ""))) ||
            (res.cols.contains "LITU12" && !(r.fields "LITU12" == ""))) &&
           r.stuID == sid))
        then 1 else 0) := by
  have hsid : studentIDs df = sids := by simp [studentIDs, h4]
  have g1 := applyAll_col_val res df "English U34"
    (Action.flag "English U34" anyU12English) (by decide) (by decide)
  have g2 := applyAll_col_val res df "English Language U34"
    (Action.flag "English Language U34" anyU12English) (by decide) (by decide)
  have g3 := applyAll_col_val res df "Literature U34"
    (Action.flag "Literature U34" anyU12English) (by decide) (by decide)
  rw [hsid] at g1 g2 g3
  refine ⟨applyAll res df, flagColumn res (anyU12English.eval res) sids,
    apply_prerequisites_ok res df h1 h2 h3 (by simp [h4]), g1, g2, g3, ?_⟩
  rw [flagColumn_eq_map]
  simp only [anyU12English_eval]

/-- Witness for C9 at a concrete input. -/
theorem claim_C9_witness :
    ∃ out l, apply_prerequisites resBio dfS1 = .ok out ∧
      getCol? out "English U34" = some (Col.ints l) ∧
      getCol? out "English Language U34" = some (Col.ints l) ∧
      getCol? out "Literature U34" = some (Col.ints l) ∧
      l = (["S1"] : List String).map (fun sid =>
        if resBio.rows.any (fun r =>
          ((((resBio.cols.contains "ENGU12" && !(r.fields "ENGU12" == "")) ||
             (resBio.cols.contains "ELANU12" && !(r.fields "ELANU12" == ""))) ||
            (resBio.cols.contains "LITU12" && !(r.fields "LITU12" == ""))) &&
           r.stuID == sid))
        then 1 else 0) :=
  claim_C9 resBio dfS1 ["S1"] rfl rfl rfl rfl

/-- Recogniser for the one special-cased catalog statement. -/
def Action.isSvfBranch : Action → Bool
  | .svfBranch => true
  | .flag _ _ => false

/-- Unfolding of the SVF mask when the `SVF` column is present. -/
theorem svfPred_eval_present (res : RecTable) (r : Row)
    (h : res.cols.contains "SVF" = true) :
    svfPred.eval res r =
      ((r.fields "SVF" == "") && ((r.y == (8 : Int)) || (r.y == (9 : Int)))) := by
  have h2 : ("SVF" : String) ∈ res.cols := by simpa using h
  simp [svfPred, Pred.eval, sget, h2, Val.eqS, y8, y9]

/-- C10: 'Social Values in Film' is the only catalog statement written
through a column-presence branch; with the `SVF` column entirely absent
every roster row gets flag 0, and with it present a roster row gets flag 1
iff the student has a record row at year 8 or 9 with an empty `SVF` cell. -/
theorem claim_C10 (res : RecTable) (df : DF) (sids : List String)
    (h1 : res.hasCG = true) (h2 : res.hasY = true) (h3 : res.hasStuID = true)
    (h4 : getCol? df "Student ID" = some (Col.strs sids)) :
    (catalog.filter Action.isSvfBranch = [Action.svfBranch]) ∧
    (res.cols.contains "SVF" = false →
      ∃ out, apply_prerequisites res df = .ok out ∧
        getCol? out "Social Values in Film" =
          some (Col.ints (List.replicate sids.length 0))) ∧
    (res.cols.contains "SVF" = true →
      ∃ out, apply_prerequisites res df = .ok out ∧
        getCol? out "Social Values in Film" =
          some (Col.ints (sids.map (fun sid =>
            if res.rows.any (fun r =>
              ((r.fields "SVF" == "") &&
                ((r.y == (8 : Int)) || (r.y == (9 : Int)))) && r.stuID == sid)
            then 1 else 0)))) := by
  have hsid : studentIDs df = sids := by simp [studentIDs, h4]
  have hfind : findAction "Social Values in Film" = some Action.svfBranch := by
    decide
  refine ⟨by decide, fun habs => ?_, fun hpres => ?_⟩
  · refine ⟨applyAll res df,
      apply_prerequisites_ok res df h1 h2 h3 (by simp [h4]), ?_⟩
    rw [applyAll_col_val res df _ Action.svfBranch (by decide) hfind, hsid]
    simp only [colOf]
    rw [habs]
    simp
  · refine ⟨applyAll res df,
      apply_prerequisites_ok res df h1 h2 h3 (by simp [h4]), ?_⟩
    rw [applyAll_col_val res df _ Action.svfBranch (by decide) hfind, hsid]
    simp only [colOf]
    rw [hpres]
    simp only [if_true, flagColumn_eq_map]
    simp only [fun r => svfPred_eval_present res r hpres]

/-- Witness for C10 (the `SVF` column is absent from `resS2`). -/
theorem claim_C10_witness :
    (catalog.filter Action.isSvfBranch = [Action.svfBranch]) ∧
    (resS2.cols.contains "SVF" = false →
      ∃ out, apply_prerequisites resS2 dfS2 = .ok out ∧
        getCol? out "Social Values in Film" =
          some (Col.ints (List.replicate (["S2"] : List String).length 0))) ∧
    (resS2.cols.contains "SVF" = true →
      ∃ out, apply_prerequisites resS2 dfS2 = .ok out ∧
        getCol? out "Social Values in Film" =
          some (Col.ints ((["S2"] : List String).map (fun sid =>
            if resS2.rows.any (fun r =>
              ((r.fields "SVF" == "") &&
                ((r.y == (8 : Int)) || (r.y == (9 : Int)))) && r.stuID == sid)
            then 1 else 0)))) :=
  claim_C10 resS2 dfS2 ["S2"] rfl rfl rfl rfl

/-- C5: scenario records = [{StuID "S2", Y 9, CG "N5"}], roster = ["S2"]:
the 'Biology U12' flag is 1, and it comes from the new-curriculum override
disjunct `y9 & new4` alone: the three other disjuncts of the rule evaluate
to false on this row. -/
theorem claim_C5 :
    (∃ out, apply_prerequisites resS2 dfS2 = .ok out ∧
      getCol? out "Biology U12" = some (Col.ints [1])) ∧
    Pred.eval (.pand y9 new4) resS2 rowS2 = true ∧
    Pred.eval (.pand (.pand y9 cgtop4)
      (.por (.colIn "SCI3" ["B+", "A", "A+"]) (.colNe "RSC1" ""))) resS2 rowS2 = false ∧
    Pred.eval (.pand y10 new4) resS2 rowS2 = false ∧
    Pred.eval (.pand (.pand y10 sci_min10) (.colEq "BIOU12" "")) resS2 rowS2 = false := by
  refine ⟨⟨applyAll resS2 dfS2,
    apply_prerequisites_ok _ _ rfl rfl rfl rfl, ?_⟩,
    by decide, by decide, by decide, by decide⟩
  rw [applyAll_col_val resS2 dfS2 "Biology U12"
    (Action.flag "Biology U12"
      (.por (.por (.por
        (.pand (.pand y9 cgtop4)
          (.por (.colIn "SCI3" ["B+", "A", "A+"]) (.colNe "RSC1" "")))
        (.pand y9 new4)) (.pand y10 new4))
        (.pand (.pand y10 sci_min10) (.colEq "BIOU12" ""))))
    (by decide) (by decide)]
  decide

/-- C4: a missing required column (`StuID`, `Y` or `CG` in the records
table; `Student ID` in the roster) makes evaluation fail with an error; in
the embedding the error is raised before any flag column is written, so no
partial result exists and the roster is unchanged. -/
theorem claim_C4 (res : RecTable) (df : DF)
    (h : res.hasCG = false ∨ res.hasY = false ∨ res.hasStuID = false ∨
      getCol? df "Student ID" = none) :
    ∃ e, apply_prerequisites res df = .error e := by
  cases hCG : res.hasCG with
  | false => exact ⟨"KeyError: CG", by simp [apply_prerequisites, hCG]⟩
  | true =>
    cases hY : res.hasY with
    | false => exact ⟨"KeyError: Y", by simp [apply_prerequisites, hCG, hY]⟩
    | true =>
      cases hSt : res.hasStuID with
      | false =>
          exact ⟨"KeyError: StuID", by simp [apply_prerequisites, hCG, hY, hSt]⟩
      | true =>
          have hnone : getCol? df "Student ID" = none := by
            rcases h with h | h | h | h
            · rw [hCG] at h; exact Bool.noConfusion h
            · rw [hY] at h; exact Bool.noConfusion h
            · rw [hSt] at h; exact Bool.noConfusion h
            · exact h
          exact ⟨"KeyError: Student ID",
            by simp [apply_prerequisites, hCG, hY, hSt, hnone]⟩

/-- Witness for C4: records table without its `CG` column. -/
theorem claim_C4_witness :
    (resNoCG.hasCG = false ∨ resNoCG.hasY = false ∨ resNoCG.hasStuID = false ∨
      getCol? dfS1 "Student ID" = none) ∧
    ∃ e, apply_prerequisites resNoCG dfS1 = .error e :=
  ⟨Or.inl rfl, claim_C4 resNoCG dfS1 (Or.inl rfl)⟩

/-- C7: on valid inputs whose roster has no column named after a catalog
subject, the result is the roster with exactly one integer flag column
appended per catalog subject, in catalog order; every pre-existing roster
column (values and order) is untouched and every flag column has exactly
one entry per roster row. -/
theorem claim_C7 (res : RecTable) (df : DF) (sids : List String)
    (h1 : res.hasCG = true) (h2 : res.hasY = true) (h3 : res.hasStuID = true)
    (h4 : getCol? df "Student ID" = some (Col.strs sids))
    (hfresh : ∀ p ∈ df.cols, p.1 ∉ catalogNames) :
    ∃ out extra, apply_prerequisites res df = .ok out ∧
      out.cols = df.cols ++ extra ∧
      extra.map Prod.fst = catalogNames ∧
      ∀ pr ∈ extra, ∃ l : List Nat, pr.2 = Col.ints l ∧ l.length = sids.length := by
  have hdisj : ∀ a ∈ catalog, hasColName df.cols a.name = false := by
    intro a ha
    have hmem : a.name ∈ catalogNames := List.mem_map_of_mem Action.name ha
    unfold hasColName
    rw [List.any_eq_false]
    intro p hp
    simpa using fun (he : p.1 = a.name) => hfresh p hp (he ▸ hmem)
  rcases runActions_cols res catalog df hdisj catalogNames_nodup
      catalog_name_ne_studentID with ⟨extra, he1, he2, he3⟩
  refine ⟨applyAll res df, extra,
    apply_prerequisites_ok res df h1 h2 h3 (by simp [h4]), he1, he2, ?_⟩
  intro pr hpr
  rcases he3 pr hpr with ⟨l, hl1, hl2⟩
  refine ⟨l, hl1, ?_⟩
  rw [hl2]
  simp [studentIDs, h4]

/-- Witness for C7 with a roster carrying an extra pre-existing column. -/
theorem claim_C7_witness :
    (∀ p ∈ (DF.mk [("Student ID", Col.strs ["S1"]), ("Home Group", Col.strs ["7A"])]).cols,
      p.1 ∉ catalogNames) ∧
    ∃ out extra,
      apply_prerequisites resNoCols
        (DF.mk [("Student ID", Col.strs ["S1"]), ("Home Group", Col.strs ["7A"])]) = .ok out ∧
      out.cols = (DF.mk [("Student ID", Col.strs ["S1"]),
        ("Home Group", Col.strs ["7A"])]).cols ++ extra ∧
      extra.map Prod.fst = catalogNames ∧
      ∀ pr ∈ extra, ∃ l : List Nat, pr.2 = Col.ints l ∧
        l.length = (["S1"] : List String).length :=
  ⟨by decide,
    claim_C7 resNoCols
      (DF.mk [("Student ID", Col.strs ["S1"]), ("Home Group", Col.strs ["7A"])])
      ["S1"] rfl rfl rfl rfl (by decide)⟩

/-- C8: re-running evaluation on an already-augmented roster (the prior
flag columns are overwritten in place) reproduces exactly the same flag
values for every catalog subject. -/
theorem claim_C8 (res : RecTable) (df df1 df2 : DF) (sids : List String)
    (s : String)
    (h1 : res.hasCG = true) (h2 : res.hasY = true) (h3 : res.hasStuID = true)
    (h4 : getCol? df "Student ID" = some (Col.strs sids))
    (ha : apply_prerequisites res df = .ok df1)
    (hb : apply_prerequisites res df1 = .ok df2)
    (hs : s ∈ catalogNames) :
    getCol? df2 s = getCol? df1 s := by
  have hok1 : apply_prerequisites res df = .ok (applyAll res df) :=
    apply_prerequisites_ok res df h1 h2 h3 (by simp [h4])
  rw [hok1] at ha
  obtain rfl : applyAll res df = df1 := Except.ok.inj ha
  have hok2 : apply_prerequisites res (applyAll res df) =
      .ok (applyAll res (applyAll res df)) := by
    refine apply_prerequisites_ok res _ h1 h2 h3 ?_
    rw [getCol?_applyAll_studentID, h4]
    rfl
  rw [hok2] at hb
  obtain rfl : applyAll res (applyAll res df) = df2 := Except.ok.inj hb
  rcases applyAll_getCol res df s hs with ⟨a, ha1, ha2⟩
  rcases applyAll_getCol res (applyAll res df) s hs with ⟨b, hb1, hb2⟩
  rw [ha1] at hb1
  obtain rfl : a = b := Option.some.inj hb1
  rw [ha2, hb2, studentIDs_applyAll]

/-- Witness for C8 at a concrete input (subject 'Drama 1'). -/
theorem claim_C8_witness :
    getCol? (applyAll resS2 (applyAll resS2 dfS2)) "Drama 1" =
      getCol? (applyAll resS2 dfS2) "Drama 1" :=
  claim_C8 resS2 dfS2 (applyAll resS2 dfS2) (applyAll resS2 (applyAll resS2 dfS2))
    ["S2"] "Drama 1" rfl rfl rfl rfl
    (apply_prerequisites_ok resS2 dfS2 rfl rfl rfl rfl)
    (apply_prerequisites_ok resS2 (applyAll resS2 dfS2) rfl rfl rfl
      (by rw [getCol?_applyAll_studentID]; rfl))
    (by decide)

/-- Counterexample to C1 as stated: with the `BIOU12` column entirely
absent and one record row for roster student "S1" (year 10, grade "B"),
the 'Biology U34' flag is 1, not the claimed 0 — the safe getter's
boolean-`False` default compares UNEQUAL to the empty string, so the
non-emptiness gate `sget('BIOU12') != ''` is true on every row. -/
theorem claim_C1_counterexample :
    ∃ out, apply_prerequisites resNoCols dfS1 = .ok out ∧
      getCol? out "Biology U34" = some (Col.ints [1]) ∧
      getCol? out "Biology U34" ≠ some (Col.ints [0]) := by
  refine ⟨applyAll resNoCols dfS1,
    apply_prerequisites_ok _ _ rfl rfl rfl rfl, ?_, ?_⟩
  · rw [applyAll_col_val resNoCols dfS1 "Biology U34"
      (Action.flag "Biology U34" (.colNe "BIOU12" "")) (by decide) (by decide)]
    decide
  · rw [applyAll_col_val resNoCols dfS1 "Biology U34"
      (Action.flag "Biology U34" (.colNe "BIOU12" "")) (by decide) (by decide)]
    decide

/-- C1 as amended: reads of an entirely absent optional column never raise
and resolve through the boolean-`False` default: `isin` and `== t`
comparisons are false, but `!= t` comparisons are TRUE; consequently
'Biology U34' on an absent `BIOU12` column flags every roster student who
has at least one record row (and 0 only for roster students with no record
rows). -/
theorem claim_C1_amended (res : RecTable) (df : DF) (sids : List String)
    (c : String)
    (hc : res.cols.contains c = false)
    (hb : res.cols.contains "BIOU12" = false)
    (h1 : res.hasCG = true) (h2 : res.hasY = true) (h3 : res.hasStuID = true)
    (h4 : getCol? df "Student ID" = some (Col.strs sids)) :
    (∀ (r : Row) (l : List String) (t : String),
      (sget res r c).isin l = false ∧ (sget res r c).eqS t = false ∧
      (sget res r c).neS t = true) ∧
    ∃ out, apply_prerequisites res df = .ok out ∧
      getCol? out "Biology U34" = some (Col.ints (sids.map (fun sid =>
        if res.rows.any (fun r => r.stuID == sid) then 1 else 0))) := by
  constructor
  · intro r l t
    have h5 : ¬(c ∈ res.cols) := by
      intro hmem
      rw [show res.cols.contains c = true by simpa using hmem] at hc
      exact Bool.noConfusion hc
    refine ⟨?_, ?_, ?_⟩ <;> simp [sget, h5, Val.isin, Val.eqS, Val.neS]
  · refine ⟨applyAll res df,
      apply_prerequisites_ok res df h1 h2 h3 (by simp [h4]), ?_⟩
    rw [applyAll_col_val res df "Biology U34"
      (Action.flag "Biology U34" (.colNe "BIOU12" "")) (by decide) (by decide),
      colOf_eq_map]
    have hsid : studentIDs df = sids := by simp [studentIDs, h4]
    have hb5 : ¬(("BIOU12" : String) ∈ res.cols) := by
      intro hmem
      rw [show res.cols.contains "BIOU12" = true by simpa using hmem] at hb
      exact Bool.noConfusion hb
    have hp : ∀ r, subjectPred res
        (Action.flag "Biology U34" (.colNe "BIOU12" "")) r = true := by
      intro r
      simp [subjectPred, Pred.eval, sget, hb5, Val.neS, Val.eqS]
    rw [hsid]
    simp only [hp, Bool.true_and]

/-- Witness for the amended C1. -/
theorem claim_C1_amended_witness :
    (resNoCols.cols.contains "ZZZ" = false) ∧
    (resNoCols.cols.contains "BIOU12" = false) ∧
    ((∀ (r : Row) (l : List String) (t : String),
      (sget resNoCols r "ZZZ").isin l = false ∧
      (sget resNoCols r "ZZZ").eqS t = false ∧
      (sget resNoCols r "ZZZ").neS t = true) ∧
    ∃ out, apply_prerequisites resNoCols dfS1 = .ok out ∧
      getCol? out "Biology U34" = some (Col.ints ((["S1"] : List String).map (fun sid =>
        if resNoCols.rows.any (fun r => r.stuID == sid) then 1 else 0)))) :=
  ⟨rfl, rfl, claim_C1_amended resNoCols dfS1 ["S1"] "ZZZ" rfl rfl rfl rfl rfl rfl⟩

/-- Counterexample to C2 as stated: the tables `resBio` (with a `BIOU12`
column whose only cell is empty) and `resNoCols` differ only in that the
`BIOU12` column is entirely removed, yet the 'Biology U34' flag — a subject
with no absence branch ('Social Values in Film' is the only one) — changes
from 0 to 1. -/
theorem claim_C2_counterexample :
    (removeCol resBio "BIOU12" = resNoCols) ∧
    (∃ out, apply_prerequisites resBio dfS1 = .ok out ∧
      getCol? out "Biology U34" = some (Col.ints [0])) ∧
    (∃ out, apply_prerequisites resNoCols dfS1 = .ok out ∧
      getCol? out "Biology U34" = some (Col.ints [1])) := by
  refine ⟨rfl, ⟨applyAll resBio dfS1,
    apply_prerequisites_ok _ _ rfl rfl rfl rfl, ?_⟩,
    ⟨applyAll resNoCols dfS1,
      apply_prerequisites_ok _ _ rfl rfl rfl rfl, ?_⟩⟩
  · rw [applyAll_col_val resBio dfS1 "Biology U34"
      (Action.flag "Biology U34" (.colNe "BIOU12" "")) (by decide) (by decide)]
    decide
  · rw [applyAll_col_val resNoCols dfS1 "Biology U34"
      (Action.flag "Biology U34" (.colNe "BIOU12" "")) (by decide) (by decide)]
    decide

/-- C2 as amended: removing an optional column entirely leaves the flags of
every subject whose rule does not read that column unchanged; subjects
whose rules do read the removed column (through grade membership,
emptiness, or non-emptiness tests) may change — not only
'Social Values in Film'. -/
theorem claim_C2_amended (c s : String) (res : RecTable) (df : DF)
    (h1 : res.hasCG = true) (h2 : res.hasY = true) (h3 : res.hasStuID = true)
    (h4 : (getCol? df "Student ID").isSome = true)
    (hs : s ∈ catalogNames) (hc : c ∉ readsOf s) :
    ∃ out1 out2, apply_prerequisites res df = .ok out1 ∧
      apply_prerequisites (removeCol res c) df = .ok out2 ∧
      getCol? out2 s = getCol? out1 s := by
  refine ⟨applyAll res df, applyAll (removeCol res c) df,
    apply_prerequisites_ok res df h1 h2 h3 h4,
    apply_prerequisites_ok (removeCol res c) df h1 h2 h3 h4, ?_⟩
  rcases applyAll_getCol res df s hs with ⟨a, ha1, ha2⟩
  rcases applyAll_getCol (removeCol res c) df s hs with ⟨b, hb1, hb2⟩
  rw [ha1] at hb1
  obtain rfl : a = b := Option.some.inj hb1
  rw [ha2, hb2, colOf_removeCol]
  simpa [readsOf, ha1] using hc

/-- Witness for the amended C2. -/
theorem claim_C2_amended_witness :
    (("Biology U34" : String) ∈ catalogNames) ∧
    ("ZZZ" ∉ readsOf "Biology U34") ∧
    ∃ out1 out2, apply_prerequisites resBio dfS1 = .ok out1 ∧
      apply_prerequisites (removeCol resBio "ZZZ") dfS1 = .ok out2 ∧
      getCol? out2 "Biology U34" = getCol? out1 "Biology U34" :=
  ⟨by decide, by decide,
    claim_C2_amended "ZZZ" "Biology U34" resBio dfS1 rfl rfl rfl rfl
      (by decide) (by decide)⟩

end Prereq
